import Mathlib

/-!
Verification of the YouTube API server (src/main.py and src/load_env.py).

The development shallowly embeds the pure logic of the server: the video-id
URL parsing, the transcript language fallback, the caption and timestamp
formatting, the error taxonomy of the four POST handlers and the health
endpoint.  The two external collaborators (the transcript service reached
through youtube_transcript_api and the public oEmbed endpoint) are modelled
as oracles packaged in the `Upstream` structure; the theorems quantify over
their behaviour.  Python strings are modelled by `String`, with the handful
of Python string primitives used by the code (slicing, split, startswith,
join, int truncation, percent-style formatting) given explicit structural
definitions over the character list so that proofs can evaluate them.
-/

namespace YTS

/-- Python `s.split(sep)` for a one-character separator, on character lists.
`splitOnChar sep [] = [[]]` just as `"".split(sep) == [""]` in Python. -/
def splitOnChar (sep : Char) : List Char → List (List Char)
  | [] => [[]]
  | c :: cs =>
    if c = sep then [] :: splitOnChar sep cs
    else (c :: (splitOnChar sep cs).headD []) :: (splitOnChar sep cs).tail

/-- Python `s.split(sep, 1)` restricted to reporting the two parts when the
separator occurs: `none` means the separator does not occur at all. -/
def pySplitFirst (sep : Char) : List Char → Option (List Char × List Char)
  | [] => none
  | c :: cs =>
    if c = sep then some ([], cs)
    else (pySplitFirst sep cs).map (fun p => (c :: p.1, p.2))

/-- Boolean list prefix test, written out so that it reduces by `rfl` even
when the tail of the second list is symbolic. -/
def listIsPrefixOf : List Char → List Char → Bool
  | [], _ => true
  | _ :: _, [] => false
  | a :: as, b :: bs => if a = b then listIsPrefixOf as bs else false

/-- Python `s.startswith(pre)`. -/
def pyStartsWith (pre s : String) : Bool :=
  listIsPrefixOf pre.data s.data

/-- Python `s[1:]`: drop the first character. -/
def pyDrop1 (s : String) : String :=
  String.mk (s.data.drop 1)

/-- Python `s.split(sep)` on strings, one-character separator. -/
def pySplit (sep : Char) (s : String) : List String :=
  (splitOnChar sep s.data).map String.mk

/-- Python `sep.join(parts)`. -/
def pyJoin (sep : String) : List String → String
  | [] => ""
  | [x] => x
  | x :: y :: xs => x ++ sep ++ pyJoin sep (y :: xs)

/-- Python `int(q)` on a rational: truncation toward zero, never rounding. -/
def pyInt (q : ℚ) : ℤ :=
  if q < 0 then q.ceil else q.floor

/-- Python format specifier `02d`: left pad the decimal rendering with zeros
to a minimum width of two. -/
def pad2 (n : ℤ) : String :=
  let s := toString n
  if s.length < 2 then "0" ++ s else s

/-- Result of Python `urllib.parse.urlparse`, restricted to the fields the
server reads: `hostname` (lowercased network location, `none` when absent),
`path` and the raw `query` string. -/
structure ParsedUrl where
  hostname : Option String
  path : String
  query : String
deriving DecidableEq

/-- Hostname extraction from a network location: the part after the last
`@` and before an optional `:port`, lowercased; `none` when empty. -/
def parseHostname (netloc : List Char) : Option String :=
  let afterUser := (splitOnChar '@' netloc).getLastD netloc
  let host := afterUser.takeWhile (fun c => c != ':')
  if host.isEmpty then none else some (String.mk (host.map Char.toLower))

/-- Python `urllib.parse.urlparse`, modelled for the URLs the server meets:
an optional `scheme:` part, a `//netloc` part when present, then path,
optional `?query` and optional `#fragment`. -/
def urlParse (url : String) : ParsedUrl :=
  let noFrag := url.data.takeWhile (fun c => c != '#')
  let afterScheme : List Char :=
    match pySplitFirst ':' noFrag with
    | some (_, rest) => rest
    | none => noFrag
  if listIsPrefixOf ['/', '/'] afterScheme then
    let rest := afterScheme.drop 2
    let netloc := rest.takeWhile (fun c => c != '/' && c != '?')
    let pathQuery := rest.drop netloc.length
    let path := pathQuery.takeWhile (fun c => c != '?')
    let query := (pathQuery.dropWhile (fun c => c != '?')).drop 1
    { hostname := parseHostname netloc, path := String.mk path, query := String.mk query }
  else
    let path := afterScheme.takeWhile (fun c => c != '?')
    let query := (afterScheme.dropWhile (fun c => c != '?')).drop 1
    { hostname := none, path := String.mk path, query := String.mk query }

/-- Python `parse_qs(query).get(key, [None])[0]` with the default `parse_qs`
arguments: split the query on `&`, split each pair at its first `=`, skip
pairs without `=` and pairs with an empty value (keep_blank_values is
False), and return the first value bound to `key`.  Percent decoding is the
identity on the plain tokens the claims quantify over and is omitted. -/
def parse_qs_first (key : String) (query : String) : Option String :=
  (splitOnChar '&' query.data).findSome? fun nv =>
    if nv = [] then none
    else
      match pySplitFirst '=' nv with
      | none => none
      | some (n, v) => if n = key.data ∧ v ≠ [] then some (String.mk v) else none

/-- src/main.py lines 81-109, `YouTubeTools.get_youtube_video_id`, acting on
the already parsed URL. -/
def get_youtube_video_id (p : ParsedUrl) : Option String :=
  if p.hostname = some "youtu.be" then
    some (pyDrop1 p.path)
  else if p.hostname = some "www.youtube.com" ∨ p.hostname = some "youtube.com" then
    if p.path = "/watch" then
      parse_qs_first "v" p.query
    else if pyStartsWith "/embed/" p.path then
      some ((pySplit '/' p.path).getD 2 "")
    else if pyStartsWith "/v/" p.path then
      some ((pySplit '/' p.path).getD 2 "")
    else none
  else none

/-- An HTTPException with its status code and detail string. -/
structure HttpError where
  status_code : Nat
  detail : String
deriving DecidableEq

/-- The video-id resolution step shared by the four POST handlers
(src/main.py lines 120-128, 203-211, 248-256, 295-303): a falsy id (None or
the empty string) raises HTTPException(400, Invalid YouTube URL), which the
enclosing except-Exception block itself catches and replaces with
HTTPException(400, Error getting video ID from URL); that is the error that
actually surfaces. -/
def resolveVideoId (p : ParsedUrl) : Except HttpError String :=
  match get_youtube_video_id p with
  | none => .error ⟨400, "Error getting video ID from URL"⟩
  | some v =>
    if v = "" then .error ⟨400, "Error getting video ID from URL"⟩ else .ok v

/-- One available transcript as listed by the transcript service and
projected by the server (src/main.py lines 316-323). -/
structure TranscriptInfo where
  language : String
  language_code : String
  is_generated : Bool
  is_translatable : Bool
deriving DecidableEq

/-- One caption snippet: start offset in seconds (possibly fractional)
and text. -/
structure Snippet where
  start : ℚ
  text : String
deriving DecidableEq

/-- A fetched transcript: metadata plus the ordered snippet list. -/
structure FetchedTranscript where
  language : String
  language_code : String
  is_generated : Bool
  snippets : List Snippet
deriving DecidableEq

/-- The clean_data projection of the oEmbed response
(src/main.py lines 143-154). -/
structure VideoData where
  title : Option String
  author_name : Option String
  author_url : Option String
  type : Option String
  height : Option String
  width : Option String
  version : Option String
  provider_name : Option String
  provider_url : Option String
  thumbnail_url : Option String
deriving DecidableEq

/-- The two external collaborators, modelled as oracles keyed like the real
calls: `list` and `fetch` are the transcript service (ytt_api.list and
ytt_api.fetch), `oembed` is the oEmbed endpoint reached through urlopen.
An `Except.error` models the exception the call would raise, carrying the
str of that exception. -/
structure Upstream where
  list : String → Except String (List TranscriptInfo)
  fetch : String → String → Except String FetchedTranscript
  oembed : String → Except String VideoData

/-- The language selection of `_get_transcript_with_fallback`
(src/main.py lines 180-192) with the fetch call factored out: the branch
structure is exactly the Python one; Python `if languages:` is false both
for None and for the empty list; the error value models the IndexError
raised by `available_languages[0]` on an empty list. -/
def chooseLanguage (available_languages : List String)
    (languages : Option (List String)) : Except String String :=
  if (match languages with | some l => !l.isEmpty | none => false) then
    match (languages.getD []).find? (fun lang => available_languages.contains lang) with
    | some lang => .ok lang
    | none =>
      match available_languages with
      | [] => .error "list index out of range"
      | first :: _ => .ok first
  else
    if available_languages.contains "en" then .ok "en"
    else
      match available_languages with
      | [] => .error "list index out of range"
      | first :: _ => .ok first

/-- src/main.py lines 170-192, `_get_transcript_with_fallback` (the Python
name carries a leading underscore): list the available transcripts, project
their language codes, choose the language, fetch, and return the fetched
transcript together with the available language codes. -/
def get_transcript_with_fallback (u : Upstream) (video_id : String)
    (languages : Option (List String)) :
    Except String (FetchedTranscript × List String) :=
  match u.list video_id with
  | .error e => .error e
  | .ok transcript_list =>
    let available_languages := transcript_list.map (fun t => t.language_code)
    match chooseLanguage available_languages languages with
    | .error e => .error e
    | .ok lang =>
      match u.fetch video_id lang with
      | .error e => .error e
      | .ok t => .ok (t, available_languages)

/-- The caption text built at src/main.py line 229: the snippet texts
joined by a single space. -/
def caption_text (snippets : List Snippet) : String :=
  pyJoin " " (snippets.map (fun s => s.text))

/-- One timestamp line as built at src/main.py lines 272-274:
start = int(snippet.start); minutes, seconds = divmod(start, 60);
minutes, colon, zero padded seconds, space dash space, text.  Python divmod
on integers is floored division, hence `Int.fdiv` and `Int.fmod`. -/
def formatTimestamp (s : Snippet) : String :=
  let start := pyInt s.start
  let minutes := Int.fdiv start 60
  let seconds := Int.fmod start 60
  toString minutes ++ ":" ++ pad2 seconds ++ " - " ++ s.text

/-- src/main.py lines 112-159, `YouTubeTools.get_video_data`. -/
def get_video_data (u : Upstream) (url : String) : Except HttpError VideoData :=
  if url = "" then .error ⟨400, "No URL provided"⟩
  else
    match resolveVideoId (urlParse url) with
    | .error e => .error e
    | .ok video_id =>
      match u.oembed video_id with
      | .error e => .error ⟨500, "Error getting video data: " ++ e⟩
      | .ok d => .ok d

/-- src/main.py lines 194-237, `YouTubeTools.get_video_captions`.  The
Python truthiness test `if fetched_transcript:` goes through the object
len, so an empty snippet list falls through to the sentinel return. -/
def get_video_captions (u : Upstream) (url : String)
    (languages : Option (List String)) : Except HttpError String :=
  if url = "" then .error ⟨400, "No URL provided"⟩
  else
    match resolveVideoId (urlParse url) with
    | .error e => .error e
    | .ok video_id =>
      match get_transcript_with_fallback u video_id languages with
      | .error e => .error ⟨500, "Error getting captions for video: " ++ e⟩
      | .ok (fetched_transcript, _available_languages) =>
        if !fetched_transcript.snippets.isEmpty then
          .ok (caption_text fetched_transcript.snippets)
        else
          .ok "No captions found for video"

/-- src/main.py lines 239-284, `YouTubeTools.get_video_timestamps`.  The
Python loop appends one formatted line per snippet to an accumulator. -/
def get_video_timestamps (u : Upstream) (url : String)
    (languages : Option (List String)) : Except HttpError (List String) :=
  if url = "" then .error ⟨400, "No URL provided"⟩
  else
    match resolveVideoId (urlParse url) with
    | .error e => .error e
    | .ok video_id =>
      match get_transcript_with_fallback u video_id languages with
      | .error e => .error ⟨500, "Error generating timestamps: " ++ e⟩
      | .ok (fetched_transcript, _available_languages) =>
        .ok (fetched_transcript.snippets.foldl
          (fun timestamps s => timestamps ++ [formatTimestamp s]) [])

/-- src/main.py lines 286-331, `YouTubeTools.get_video_transcript_languages`:
the projection of each listed transcript into the four reported fields is
the `TranscriptInfo` structure itself. -/
def get_video_transcript_languages (u : Upstream) (url : String) :
    Except HttpError (List TranscriptInfo) :=
  if url = "" then .error ⟨400, "No URL provided"⟩
  else
    match resolveVideoId (urlParse url) with
    | .error e => .error e
    | .ok video_id =>
      match u.list video_id with
      | .error e => .error ⟨500, "Error listing transcript languages: " ++ e⟩
      | .ok transcript_list => .ok transcript_list

/-- The environment variables the proxy configuration and the health
endpoint read; `none` models an unset variable. -/
structure ProxyEnv where
  webshare_proxy : Option String
  webshare_proxy_username : Option String
deriving DecidableEq

/-- src/main.py lines 35-48, `get_webshare_config`: `none` when
WEBSHARE_PROXY is unset or empty (Python falsiness), otherwise the proxy
URL used for both the http and https endpoints. -/
def get_webshare_config (env : ProxyEnv) : Option String :=
  match env.webshare_proxy with
  | none => none
  | some proxy_url => if proxy_url = "" then none else some proxy_url

/-- The body of the health response: exactly the five reported fields. -/
structure HealthResponse where
  status : String
  timestamp : String
  proxy_status : String
  proxy_username : Option String
  parallel_processing : String
deriving DecidableEq

/-- src/main.py lines 377-391, `health_check`.  A total function into
`HealthResponse`: the handler cannot raise, which models the unconditional
HTTP 200. -/
def health_check (env : ProxyEnv) (now : String) : HealthResponse :=
  let proxy_status := if (get_webshare_config env).isSome then "enabled" else "disabled"
  let proxy_username := env.webshare_proxy_username.getD "not_set"
  { status := "healthy"
    timestamp := now
    proxy_status := "webshare_" ++ proxy_status
    proxy_username := if (get_webshare_config env).isSome then some proxy_username else none
    parallel_processing := "enabled" }

/-- The language selection policy in the words of the specification
(section 4.3) and of claim C1, written independently of the code for
comparison with `chooseLanguage`: with a non-empty preference list, the
first preferred code occurring in the available list, else the first
available code; with no preference, `en` when available, else the first
available code. -/
def specSelectLanguage (available : List String)
    (preferred : Option (List String)) : String :=
  match preferred with
  | some (p :: ps) =>
    match (p :: ps).find? (fun l => available.contains l) with
    | some l => l
    | none => available.headD ""
  | _ => if available.contains "en" then "en" else available.headD ""

/-- The four URL rules of the parser, in the words of claim C3, one
disjunct per rule; the watch rule includes the presence of a usable `v`
query parameter, since claim C2 makes the parameter part of that shape. -/
def ruleMatches (p : ParsedUrl) : Prop :=
  p.hostname = some "youtu.be" ∨
  ((p.hostname = some "www.youtube.com" ∨ p.hostname = some "youtube.com") ∧
    ((p.path = "/watch" ∧ (parse_qs_first "v" p.query).isSome = true) ∨
     pyStartsWith "/embed/" p.path = true ∨
     pyStartsWith "/v/" p.path = true))

/-- A token free of every character that is special to the URL grammar the
parser reads (path, query and percent encoding separators).  Real video ids
draw on letters, digits, dash and underscore, all of which qualify. -/
def plainToken (id : String) : Prop :=
  id ≠ "" ∧ ∀ c ∈ id.data,
    c ≠ '/' ∧ c ≠ '&' ∧ c ≠ '=' ∧ c ≠ '?' ∧ c ≠ '#' ∧ c ≠ '%' ∧ c ≠ '+'

/-- Fixture: a two-language listing, as the transcript service would
return it. -/
def exInfos : List TranscriptInfo :=
  [⟨"Spanish", "es", false, true⟩, ⟨"French", "fr", true, true⟩]

/-- Fixture: an upstream whose listing is `exInfos` and whose fetch returns
one snippet tagged with the requested language. -/
def exUpstream : Upstream :=
  ⟨fun _ => .ok exInfos,
   fun _ lang => .ok ⟨lang, lang, false, [⟨mkRat 1257 10, "hello"⟩]⟩,
   fun _ => .ok ⟨some "t", none, none, none, none, none, none, none, none, none⟩⟩

/-- Fixture: an upstream all of whose calls fail with the message boom. -/
def exUpstreamErr : Upstream :=
  ⟨fun _ => .error "boom", fun _ _ => .error "boom", fun _ => .error "boom"⟩

/-- Fixture: an upstream whose listing yields no languages at all. -/
def exUpstreamEmpty : Upstream :=
  ⟨fun _ => .ok [], fun _ _ => .error "unreached", fun _ => .error "unreached"⟩

/-- Fixture: an upstream whose fetched transcript has zero snippets. -/
def exUpstreamNoSnippets : Upstream :=
  ⟨fun _ => .ok exInfos, fun _ lang => .ok ⟨lang, lang, false, []⟩, fun _ => .error "x"⟩

/-- Fixture: an upstream whose listing succeeds but whose fetch call
fails with the message boom. -/
def exUpstreamFetchErr : Upstream :=
  ⟨fun _ => .ok exInfos, fun _ _ => .error "boom", fun _ => .error "boom"⟩

end YTS

namespace YTS

theorem data_append (s t : String) : (s ++ t).data = s.data ++ t.data := rfl

theorem data_ne_of_ne_empty {s : String} (h : s ≠ "") : s.data ≠ [] :=
  fun h2 => h (String.ext h2)

theorem splitOnChar_sep (sep : Char) (l : List Char) :
    splitOnChar sep (sep :: l) = [] :: splitOnChar sep l := by
  simp [splitOnChar]

theorem splitOnChar_not_sep (sep c : Char) (l : List Char) (h : c ≠ sep) :
    splitOnChar sep (c :: l) =
      (c :: (splitOnChar sep l).headD []) :: (splitOnChar sep l).tail := by
  simp [splitOnChar, h]

theorem splitOnChar_no_sep (sep : Char) :
    ∀ (l : List Char), sep ∉ l → splitOnChar sep l = [l]
  | [], _ => rfl
  | c :: cs, h => by
    have hc : c ≠ sep := fun he => h (he ▸ List.mem_cons_self c cs)
    rw [splitOnChar_not_sep sep c cs hc,
      splitOnChar_no_sep sep cs (fun hm => h (List.mem_cons_of_mem c hm))]
    rfl

theorem pySplitFirst_sep (sep : Char) (l : List Char) :
    pySplitFirst sep (sep :: l) = some ([], l) := by
  simp [pySplitFirst]

theorem pySplitFirst_not_sep (sep c : Char) (l : List Char) (h : c ≠ sep) :
    pySplitFirst sep (c :: l) =
      (pySplitFirst sep l).map (fun p => (c :: p.1, p.2)) := by
  simp [pySplitFirst, h]

theorem parse_qs_first_v (id : String) (hne : id ≠ "") (hamp : '&' ∉ id.data) :
    parse_qs_first "v" ("v=" ++ id) = some id := by
  have hid : id.data ≠ [] := data_ne_of_ne_empty hne
  have hmem : '&' ∉ ('v' :: '=' :: id.data) := by
    intro hm
    rcases List.mem_cons.mp hm with h | hm2
    · exact absurd h (by decide)
    rcases List.mem_cons.mp hm2 with h | hm3
    · exact absurd h (by decide)
    · exact hamp hm3
  obtain ⟨c, cs, hcons⟩ := List.exists_cons_of_ne_nil hid
  unfold parse_qs_first
  rw [show ("v=" ++ id).data = 'v' :: '=' :: id.data from rfl,
    splitOnChar_no_sep _ _ hmem, hcons]
  show some (String.mk (c :: cs)) = some id
  rw [← hcons]

theorem get_id_youtu_be (path query : String) :
    get_youtube_video_id ⟨some "youtu.be", path, query⟩ = some (pyDrop1 path) := rfl

theorem get_id_youtube_com (path query : String) :
    get_youtube_video_id ⟨some "youtube.com", path, query⟩ =
      (if path = "/watch" then parse_qs_first "v" query
       else if pyStartsWith "/embed/" path then some ((pySplit '/' path).getD 2 "")
       else if pyStartsWith "/v/" path then some ((pySplit '/' path).getD 2 "")
       else none) := rfl

theorem get_id_www_youtube_com (path query : String) :
    get_youtube_video_id ⟨some "www.youtube.com", path, query⟩ =
      (if path = "/watch" then parse_qs_first "v" query
       else if pyStartsWith "/embed/" path then some ((pySplit '/' path).getD 2 "")
       else if pyStartsWith "/v/" path then some ((pySplit '/' path).getD 2 "")
       else none) := rfl

theorem splitOnChar_embed (T : List Char) (h : '/' ∉ T) :
    splitOnChar '/' ('/' :: 'e' :: 'm' :: 'b' :: 'e' :: 'd' :: '/' :: T) =
      [[], ['e', 'm', 'b', 'e', 'd'], T] := by
  have h1 : splitOnChar '/' ('/' :: T) = [[], T] := by
    rw [splitOnChar_sep, splitOnChar_no_sep _ _ h]
  have h2 : splitOnChar '/' ('d' :: '/' :: T) = [['d'], T] := by
    rw [splitOnChar_not_sep _ _ _ (by decide), h1]
    rfl
  have h3 : splitOnChar '/' ('e' :: 'd' :: '/' :: T) = [['e', 'd'], T] := by
    rw [splitOnChar_not_sep _ _ _ (by decide), h2]
    rfl
  have h4 : splitOnChar '/' ('b' :: 'e' :: 'd' :: '/' :: T) = [['b', 'e', 'd'], T] := by
    rw [splitOnChar_not_sep _ _ _ (by decide), h3]
    rfl
  have h5 : splitOnChar '/' ('m' :: 'b' :: 'e' :: 'd' :: '/' :: T) =
      [['m', 'b', 'e', 'd'], T] := by
    rw [splitOnChar_not_sep _ _ _ (by decide), h4]
    rfl
  have h6 : splitOnChar '/' ('e' :: 'm' :: 'b' :: 'e' :: 'd' :: '/' :: T) =
      [['e', 'm', 'b', 'e', 'd'], T] := by
    rw [splitOnChar_not_sep _ _ _ (by decide), h5]
    rfl
  rw [splitOnChar_sep, h6]

theorem splitOnChar_vpath (T : List Char) (h : '/' ∉ T) :
    splitOnChar '/' ('/' :: 'v' :: '/' :: T) = [[], ['v'], T] := by
  have h1 : splitOnChar '/' ('/' :: T) = [[], T] := by
    rw [splitOnChar_sep, splitOnChar_no_sep _ _ h]
  have h2 : splitOnChar '/' ('v' :: '/' :: T) = [['v'], T] := by
    rw [splitOnChar_not_sep _ _ _ (by decide), h1]
    rfl
  rw [splitOnChar_sep, h2]

theorem pySplit_embed (id : String) (h : '/' ∉ id.data) :
    pySplit '/' ("/embed/" ++ id) = ["", "embed", id] := by
  unfold pySplit
  rw [show ("/embed/" ++ id).data = '/' :: 'e' :: 'm' :: 'b' :: 'e' :: 'd' :: '/' :: id.data
      from rfl,
    splitOnChar_embed id.data h]
  rfl

theorem pySplit_vpath (id : String) (h : '/' ∉ id.data) :
    pySplit '/' ("/v/" ++ id) = ["", "v", id] := by
  unfold pySplit
  rw [show ("/v/" ++ id).data = '/' :: 'v' :: '/' :: id.data from rfl,
    splitOnChar_vpath id.data h]
  rfl

theorem chooseLanguage_ok (available : List String) (languages : Option (List String))
    (h : available ≠ []) :
    chooseLanguage available languages = .ok (specSelectLanguage available languages) := by
  obtain ⟨a, as, rfl⟩ := List.exists_cons_of_ne_nil h
  cases languages with
  | none =>
    show (if (a :: as).contains "en" = true then (Except.ok "en" : Except String String)
          else .ok a) =
      .ok (if (a :: as).contains "en" = true then "en" else a)
    by_cases he : (a :: as).contains "en" = true
    · rw [if_pos he, if_pos he]
    · rw [if_neg he, if_neg he]
  | some ls =>
    cases ls with
    | nil =>
      show (if (a :: as).contains "en" = true then (Except.ok "en" : Except String String)
            else .ok a) =
        .ok (if (a :: as).contains "en" = true then "en" else a)
      by_cases he : (a :: as).contains "en" = true
      · rw [if_pos he, if_pos he]
      · rw [if_neg he, if_neg he]
    | cons p ps =>
      show (match (p :: ps).find? (fun lang => (a :: as).contains lang) with
            | some lang => (Except.ok lang : Except String String)
            | none => .ok a) =
        .ok (match (p :: ps).find? (fun lang => (a :: as).contains lang) with
            | some l => l
            | none => a)
      cases hf : (p :: ps).find? (fun lang => (a :: as).contains lang) with
      | none => rfl
      | some l => rfl

theorem find_in_empty : ∀ (ls : List String),
    ls.find? (fun lang => ([] : List String).contains lang) = none
  | [] => rfl
  | p :: ps => by
    rw [show List.find? (fun lang => ([] : List String).contains lang) (p :: ps) =
        List.find? (fun lang => ([] : List String).contains lang) ps from rfl,
      find_in_empty ps]

theorem chooseLanguage_nil (languages : Option (List String)) :
    chooseLanguage [] languages = .error "list index out of range" := by
  cases languages with
  | none => rfl
  | some ls =>
    cases ls with
    | nil => rfl
    | cons p ps =>
      show (match (p :: ps).find? (fun lang => ([] : List String).contains lang) with
            | some lang => (Except.ok lang : Except String String)
            | none => Except.error "list index out of range") =
        .error "list index out of range"
      rw [find_in_empty]

theorem fallback_listing_ok (u : Upstream) (video_id : String)
    (infos : List TranscriptInfo) (languages : Option (List String))
    (h : u.list video_id = .ok infos) :
    get_transcript_with_fallback u video_id languages =
      (match chooseLanguage (infos.map fun t => t.language_code) languages with
       | .error e => .error e
       | .ok lang =>
         match u.fetch video_id lang with
         | .error e => .error e
         | .ok t => .ok (t, infos.map fun t => t.language_code)) := by
  unfold get_transcript_with_fallback
  rw [h]

theorem fallback_listing_err (u : Upstream) (video_id : String)
    (languages : Option (List String)) (msg : String)
    (h : u.list video_id = .error msg) :
    get_transcript_with_fallback u video_id languages = .error msg := by
  unfold get_transcript_with_fallback
  rw [h]

theorem fallback_empty_listing (u : Upstream) (video_id : String)
    (languages : Option (List String)) (h : u.list video_id = .ok []) :
    get_transcript_with_fallback u video_id languages =
      .error "list index out of range" := by
  rw [fallback_listing_ok u video_id [] languages h]
  simp [chooseLanguage_nil]

theorem fallback_fetch_err (u : Upstream) (video_id : String)
    (languages : Option (List String)) (infos : List TranscriptInfo)
    (lang msg : String) (hlist : u.list video_id = .ok infos)
    (hsel : chooseLanguage (infos.map fun t => t.language_code) languages = .ok lang)
    (hfetch : u.fetch video_id lang = .error msg) :
    get_transcript_with_fallback u video_id languages = .error msg := by
  rw [fallback_listing_ok u video_id infos languages hlist]
  simp only [hsel, hfetch]

theorem foldl_append_map (f : Snippet → String) :
    ∀ (l : List Snippet) (acc : List String),
      l.foldl (fun timestamps s => timestamps ++ [f s]) acc = acc ++ l.map f
  | [], acc => by simp
  | s :: ss, acc => by
    simp [foldl_append_map f ss (acc ++ [f s])]

theorem ratFloor_eq_floor (q : ℚ) : q.floor = ⌊q⌋ :=
  (Rat.floor_def' q).trans Rat.floor_def.symm

/-- C1: for every non-empty list of available language codes and every
request, the transcript resolver fetches using the first preferred code
(in caller-supplied order) that occurs in the available list; if no
preferred code occurs there, it fetches using the first element of the
available list in upstream listing order; if no preferred list is
supplied, it fetches en when en is available and otherwise the first
available code.  `specSelectLanguage` spells that policy out in the words
of the claim, and the resolver is exactly one fetch at that code, paired
with the available codes. -/
theorem claim_C1_language_selection (u : Upstream) (video_id : String)
    (infos : List TranscriptInfo) (languages : Option (List String))
    (hlist : u.list video_id = .ok infos) (hne : infos ≠ []) :
    get_transcript_with_fallback u video_id languages =
      (u.fetch video_id
        (specSelectLanguage (infos.map fun t => t.language_code) languages)).map
        (fun t => (t, infos.map fun t => t.language_code)) := by
  have hav : infos.map (fun t => t.language_code) ≠ [] :=
    fun hm => hne (List.map_eq_nil_iff.mp hm)
  rw [fallback_listing_ok u video_id infos languages hlist]
  simp only [chooseLanguage_ok _ _ hav]
  cases hfetch : u.fetch video_id
      (specSelectLanguage (infos.map fun t => t.language_code) languages) with
  | error e => rfl
  | ok t => rfl

/-- Witness for C1: with available codes es, fr and preference de, fr the
resolver returns the fetch at the selected code. -/
theorem claim_C1_language_selection_witness :
    exInfos ≠ [] ∧
    get_transcript_with_fallback exUpstream "vid" (some ["de", "fr"]) =
      (exUpstream.fetch "vid"
        (specSelectLanguage (exInfos.map fun t => t.language_code)
          (some ["de", "fr"]))).map
        (fun t => (t, exInfos.map fun t => t.language_code)) :=
  ⟨by decide,
   claim_C1_language_selection exUpstream "vid" exInfos (some ["de", "fr"]) rfl (by decide)⟩

/-- C2: for each of the four supported URL shapes — host youtu.be with
path slash id, host youtube.com or www.youtube.com with path /watch and
query parameter v equal to id, path /embed/ id, and path /v/ id — the
parser returns exactly the id token, the rules being evaluated in source
order against the parsed hostname and path.  The token ranges over plain
video-id tokens, `plainToken`. -/
theorem claim_C2_four_url_shapes (id : String) (hid : plainToken id) :
    get_youtube_video_id ⟨some "youtu.be", "/" ++ id, ""⟩ = some id ∧
    get_youtube_video_id ⟨some "youtube.com", "/watch", "v=" ++ id⟩ = some id ∧
    get_youtube_video_id ⟨some "www.youtube.com", "/watch", "v=" ++ id⟩ = some id ∧
    get_youtube_video_id ⟨some "youtube.com", "/embed/" ++ id, ""⟩ = some id ∧
    get_youtube_video_id ⟨some "www.youtube.com", "/embed/" ++ id, ""⟩ = some id ∧
    get_youtube_video_id ⟨some "youtube.com", "/v/" ++ id, ""⟩ = some id ∧
    get_youtube_video_id ⟨some "www.youtube.com", "/v/" ++ id, ""⟩ = some id := by
  obtain ⟨hne, hplain⟩ := hid
  have hslash : '/' ∉ id.data := fun hm => (hplain _ hm).1 rfl
  have hamp : '&' ∉ id.data := fun hm => (hplain _ hm).2.1 rfl
  have hwatch_embed : ("/embed/" ++ id) ≠ "/watch" := by
    intro hcontra
    have h2 : ('e' : Char) = 'w' := congrArg (fun s => s.data.getD 1 ' ') hcontra
    exact absurd h2 (by decide)
  have hwatch_v : ("/v/" ++ id) ≠ "/watch" := by
    intro hcontra
    have h2 : ('v' : Char) = 'w' := congrArg (fun s => s.data.getD 1 ' ') hcontra
    exact absurd h2 (by decide)
  have hemb : pyStartsWith "/embed/" ("/embed/" ++ id) = true := rfl
  have hv : pyStartsWith "/v/" ("/v/" ++ id) = true := rfl
  have hfalse : pyStartsWith "/embed/" ("/v/" ++ id) = false := rfl
  have hnotemb : ¬ pyStartsWith "/embed/" ("/v/" ++ id) = true := by
    rw [hfalse]
    exact Bool.false_ne_true
  have hembed_result : some ((pySplit '/' ("/embed/" ++ id)).getD 2 "") = some id := by
    rw [pySplit_embed id hslash]
    rfl
  have hv_result : some ((pySplit '/' ("/v/" ++ id)).getD 2 "") = some id := by
    rw [pySplit_vpath id hslash]
    rfl
  refine ⟨rfl, ?_, ?_, ?_, ?_, ?_, ?_⟩
  · rw [get_id_youtube_com, if_pos rfl]
    exact parse_qs_first_v id hne hamp
  · rw [get_id_www_youtube_com, if_pos rfl]
    exact parse_qs_first_v id hne hamp
  · rw [get_id_youtube_com, if_neg hwatch_embed, if_pos hemb]
    exact hembed_result
  · rw [get_id_www_youtube_com, if_neg hwatch_embed, if_pos hemb]
    exact hembed_result
  · rw [get_id_youtube_com, if_neg hwatch_v, if_neg hnotemb, if_pos hv]
    exact hv_result
  · rw [get_id_www_youtube_com, if_neg hwatch_v, if_neg hnotemb, if_pos hv]
    exact hv_result

/-- Witness for C2 at the token dQw4w9WgXcQ on the embed shape. -/
theorem claim_C2_four_url_shapes_witness :
    plainToken "dQw4w9WgXcQ" ∧
    get_youtube_video_id ⟨some "youtube.com", "/embed/" ++ "dQw4w9WgXcQ", ""⟩ =
      some "dQw4w9WgXcQ" :=
  ⟨⟨by decide, by decide⟩,
   (claim_C2_four_url_shapes "dQw4w9WgXcQ" ⟨by decide, by decide⟩).2.2.2.1⟩

/-- C3: for every parsed URL whose hostname is none of youtu.be,
youtube.com and www.youtube.com, or whose path and query match none of
the four rules, or whose extracted id segment is empty, the parse yields
no usable video id (None or the empty string) and all four POST handlers
surface this as a client error with HTTP status 400. -/
theorem claim_C3_invalid_url_rejection (p : ParsedUrl)
    (hbad : (p.hostname ≠ some "youtu.be" ∧ p.hostname ≠ some "www.youtube.com" ∧
             p.hostname ≠ some "youtube.com") ∨
            ¬ ruleMatches p ∨ get_youtube_video_id p = some "") :
    (get_youtube_video_id p = none ∨ get_youtube_video_id p = some "") ∧
    resolveVideoId p = .error ⟨400, "Error getting video ID from URL"⟩ ∧
    (∀ (u : Upstream) (url : String) (languages : Option (List String)),
      url ≠ "" → urlParse url = p →
      get_video_data u url = .error ⟨400, "Error getting video ID from URL"⟩ ∧
      get_video_captions u url languages =
        .error ⟨400, "Error getting video ID from URL"⟩ ∧
      get_video_timestamps u url languages =
        .error ⟨400, "Error getting video ID from URL"⟩ ∧
      get_video_transcript_languages u url =
        .error ⟨400, "Error getting video ID from URL"⟩) := by
  have hmain : get_youtube_video_id p = none ∨ get_youtube_video_id p = some "" := by
    rcases hbad with ⟨h1, h2, h3⟩ | hnr | hs
    · left
      unfold get_youtube_video_id
      rw [if_neg h1, if_neg (fun hc => hc.elim h2 h3)]
    · by_cases hbe : p.hostname = some "youtu.be"
      · exact absurd (Or.inl hbe) hnr
      by_cases hyt : p.hostname = some "www.youtube.com" ∨ p.hostname = some "youtube.com"
      · unfold get_youtube_video_id
        rw [if_neg hbe, if_pos hyt]
        by_cases hw : p.path = "/watch"
        · rw [if_pos hw]
          cases hq : parse_qs_first "v" p.query with
          | none => exact Or.inl rfl
          | some v =>
            exact absurd (Or.inr ⟨hyt, Or.inl ⟨hw, by rw [hq]; rfl⟩⟩) hnr
        · rw [if_neg hw]
          by_cases he : pyStartsWith "/embed/" p.path = true
          · exact absurd (Or.inr ⟨hyt, Or.inr (Or.inl he)⟩) hnr
          by_cases hvp : pyStartsWith "/v/" p.path = true
          · exact absurd (Or.inr ⟨hyt, Or.inr (Or.inr hvp)⟩) hnr
          rw [if_neg he, if_neg hvp]
          exact Or.inl rfl
      · unfold get_youtube_video_id
        rw [if_neg hbe, if_neg hyt]
        exact Or.inl rfl
    · exact Or.inr hs
  have hres : resolveVideoId p = .error ⟨400, "Error getting video ID from URL"⟩ := by
    unfold resolveVideoId
    rcases hmain with h | h
    · rw [h]
    · rw [h]
      rfl
  refine ⟨hmain, hres, ?_⟩
  intro u url languages hurl hparse
  refine ⟨?_, ?_, ?_, ?_⟩
  · unfold get_video_data
    rw [if_neg hurl, hparse, hres]
  · unfold get_video_captions
    rw [if_neg hurl, hparse, hres]
  · unfold get_video_timestamps
    rw [if_neg hurl, hparse, hres]
  · unfold get_video_transcript_languages
    rw [if_neg hurl, hparse, hres]

/-- Witness for C3 at a vimeo.com URL: the parse yields nothing usable
and the captions handler answers 400. -/
theorem claim_C3_invalid_url_rejection_witness :
    (get_youtube_video_id ⟨some "vimeo.com", "/watch", "v=x"⟩ = none ∨
     get_youtube_video_id ⟨some "vimeo.com", "/watch", "v=x"⟩ = some "") ∧
    get_video_captions exUpstream "https://vimeo.com/watch?v=x" none =
      .error ⟨400, "Error getting video ID from URL"⟩ :=
  ⟨(claim_C3_invalid_url_rejection ⟨some "vimeo.com", "/watch", "v=x"⟩
      (Or.inl ⟨by decide, by decide, by decide⟩)).1,
   ((claim_C3_invalid_url_rejection ⟨some "vimeo.com", "/watch", "v=x"⟩
      (Or.inl ⟨by decide, by decide, by decide⟩)).2.2 exUpstream
      "https://vimeo.com/watch?v=x" none (by decide) (by decide)).2.1⟩

/-- C4: for every fetched transcript the timestamps handler produces one
output string per snippet, in input order (the loop equals a map of
`formatTimestamp`); the rendering uses divmod of the truncated start
offset by 60 with the fractional part discarded, never rounded (for a
nonnegative offset the output depends only on its floor); and the snippet
with start offset 125.7 and text hello formats as 2:05 - hello. -/
theorem claim_C4_timestamp_format (u : Upstream) (url video_id : String)
    (languages : Option (List String)) (t : FetchedTranscript) (avail : List String)
    (hurl : url ≠ "") (hres : resolveVideoId (urlParse url) = .ok video_id)
    (hfb : get_transcript_with_fallback u video_id languages = .ok (t, avail)) :
    get_video_timestamps u url languages = .ok (t.snippets.map formatTimestamp) ∧
    (∀ (q : ℚ) (txt : String), 0 ≤ q →
      formatTimestamp ⟨q, txt⟩ = formatTimestamp ⟨((⌊q⌋ : ℤ) : ℚ), txt⟩) ∧
    (125.7 : ℚ) = mkRat 1257 10 ∧
    formatTimestamp ⟨mkRat 1257 10, "hello"⟩ = "2:05 - hello" := by
  refine ⟨?_, ?_, by norm_num [mkRat], by decide⟩
  · unfold get_video_timestamps
    rw [if_neg hurl]
    simp only [hres, hfb]
    rw [foldl_append_map, List.nil_append]
  · intro q txt hq
    have h0 : ¬ q < 0 := not_lt.mpr hq
    have hfl : (0 : ℤ) ≤ ⌊q⌋ := Int.floor_nonneg.mpr hq
    have h1 : ¬ ((⌊q⌋ : ℤ) : ℚ) < 0 := not_lt.mpr (by exact_mod_cast hfl)
    have h3 : Rat.floor (((⌊q⌋ : ℤ) : ℚ)) = Rat.floor q := by
      rw [ratFloor_eq_floor, ratFloor_eq_floor, Int.floor_intCast]
    simp only [formatTimestamp, pyInt]
    rw [if_neg h0, if_neg h1, h3]

/-- Witness for C4: the timestamps handler formats the single fetched
snippet. -/
theorem claim_C4_timestamp_format_witness :
    get_video_timestamps exUpstream "https://youtu.be/xyz" none =
      .ok ((⟨"es", "es", false, [⟨mkRat 1257 10, "hello"⟩]⟩ :
        FetchedTranscript).snippets.map formatTimestamp) :=
  (claim_C4_timestamp_format exUpstream "https://youtu.be/xyz" "xyz" none
    ⟨"es", "es", false, [⟨mkRat 1257 10, "hello"⟩]⟩ ["es", "fr"]
    (by decide) rfl rfl).1

/-- C5: for every fetched transcript with at least one snippet the
captions handler returns the snippet texts joined by single spaces in
snippet order; for a transcript with zero snippets it returns the
sentinel string, as a successful response, not an error; and the two
texts a, b join to a b. -/
theorem claim_C5_captions (u : Upstream) (url video_id : String)
    (languages : Option (List String)) (t : FetchedTranscript) (avail : List String)
    (hurl : url ≠ "") (hres : resolveVideoId (urlParse url) = .ok video_id)
    (hfb : get_transcript_with_fallback u video_id languages = .ok (t, avail)) :
    (t.snippets ≠ [] →
      get_video_captions u url languages = .ok (caption_text t.snippets)) ∧
    (t.snippets = [] →
      get_video_captions u url languages = .ok "No captions found for video") ∧
    caption_text [⟨0, "a"⟩, ⟨7, "b"⟩] = "a b" := by
  refine ⟨?_, ?_, by decide⟩
  · intro hsn
    obtain ⟨a, as, hcons⟩ := List.exists_cons_of_ne_nil hsn
    unfold get_video_captions
    rw [if_neg hurl]
    simp only [hres, hfb, hcons]
    rfl
  · intro hsn
    unfold get_video_captions
    rw [if_neg hurl]
    simp only [hres, hfb, hsn]
    rfl

/-- Witness for C5: the captions handler joins the single fetched
snippet text. -/
theorem claim_C5_captions_witness :
    [(⟨mkRat 1257 10, "hello"⟩ : Snippet)] ≠ [] ∧
    get_video_captions exUpstream "https://youtu.be/xyz" none =
      .ok (caption_text [⟨mkRat 1257 10, "hello"⟩]) :=
  ⟨by decide,
   (claim_C5_captions exUpstream "https://youtu.be/xyz" "xyz" none
      ⟨"es", "es", false, [⟨mkRat 1257 10, "hello"⟩]⟩ ["es", "fr"]
      (by decide) rfl rfl).1 (by decide)⟩

/-- C6: for each of the four POST operations an empty url string is
answered with client error 400 before any outbound call (the result is
the same for every upstream, since the theorem holds for all of them),
while any upstream failure — a failing oEmbed call, a failing listing
call, or a failing fetch call of the transcript service (which is how
disabled captions, private videos and network failures surface) — is
answered with server error 500 carrying the upstream message. -/
theorem claim_C6_error_taxonomy (u : Upstream) (url video_id : String)
    (languages : Option (List String)) (msg : String) :
    (get_video_data u "" = .error ⟨400, "No URL provided"⟩ ∧
     get_video_captions u "" languages = .error ⟨400, "No URL provided"⟩ ∧
     get_video_timestamps u "" languages = .error ⟨400, "No URL provided"⟩ ∧
     get_video_transcript_languages u "" = .error ⟨400, "No URL provided"⟩) ∧
    (url ≠ "" → resolveVideoId (urlParse url) = .ok video_id →
      (u.oembed video_id = .error msg →
        get_video_data u url = .error ⟨500, "Error getting video data: " ++ msg⟩) ∧
      (u.list video_id = .error msg →
        get_video_captions u url languages =
          .error ⟨500, "Error getting captions for video: " ++ msg⟩ ∧
        get_video_timestamps u url languages =
          .error ⟨500, "Error generating timestamps: " ++ msg⟩ ∧
        get_video_transcript_languages u url =
          .error ⟨500, "Error listing transcript languages: " ++ msg⟩) ∧
      (∀ (infos : List TranscriptInfo) (lang : String),
        u.list video_id = .ok infos →
        chooseLanguage (infos.map fun t => t.language_code) languages = .ok lang →
        u.fetch video_id lang = .error msg →
        get_video_captions u url languages =
          .error ⟨500, "Error getting captions for video: " ++ msg⟩ ∧
        get_video_timestamps u url languages =
          .error ⟨500, "Error generating timestamps: " ++ msg⟩)) := by
  refine ⟨⟨rfl, rfl, rfl, rfl⟩, ?_⟩
  intro hurl hres
  refine ⟨?_, ?_, ?_⟩
  · intro hoe
    unfold get_video_data
    rw [if_neg hurl]
    simp only [hres, hoe]
  · intro hlist
    refine ⟨?_, ?_, ?_⟩
    · unfold get_video_captions
      rw [if_neg hurl]
      simp only [hres, fallback_listing_err u video_id languages msg hlist]
    · unfold get_video_timestamps
      rw [if_neg hurl]
      simp only [hres, fallback_listing_err u video_id languages msg hlist]
    · unfold get_video_transcript_languages
      rw [if_neg hurl]
      simp only [hres, hlist]
  · intro infos lang hlist hsel hfetch
    have hf := fallback_fetch_err u video_id languages infos lang msg hlist hsel hfetch
    refine ⟨?_, ?_⟩
    · unfold get_video_captions
      rw [if_neg hurl]
      simp only [hres, hf]
    · unfold get_video_timestamps
      rw [if_neg hurl]
      simp only [hres, hf]

/-- Witness for C6: the empty url is a 400 before consulting the failing
upstream; the failing oEmbed call and a fetch-stage transcript failure
are each a 500 carrying the upstream message. -/
theorem claim_C6_error_taxonomy_witness :
    get_video_data exUpstreamErr "" = .error ⟨400, "No URL provided"⟩ ∧
    get_video_data exUpstreamErr "https://youtu.be/xyz" =
      .error ⟨500, "Error getting video data: boom"⟩ ∧
    get_video_captions exUpstreamFetchErr "https://youtu.be/xyz" none =
      .error ⟨500, "Error getting captions for video: boom"⟩ :=
  ⟨(claim_C6_error_taxonomy exUpstreamErr "https://youtu.be/xyz" "xyz" none "boom").1.1,
   ((claim_C6_error_taxonomy exUpstreamErr "https://youtu.be/xyz" "xyz" none "boom").2
      (by decide) rfl).1 rfl,
   (((claim_C6_error_taxonomy exUpstreamFetchErr "https://youtu.be/xyz" "xyz" none
      "boom").2 (by decide) rfl).2.2 exInfos "es" rfl rfl rfl).1⟩

/-- C7 counterexample: with the proxy configured but no username
configured (WEBSHARE_PROXY set, WEBSHARE_PROXY_USERNAME unset), the
health response carries the literal string not_set as proxy_username,
which is neither null nor a configured username — refuting the claim that
proxy_username is the configured username when the proxy is enabled and
null otherwise. -/
theorem claim_C7_health_counterexample :
    ¬ ((health_check ⟨some "http://proxy.example", none⟩ "2026-01-01T00:00:00").proxy_username =
       (if (get_webshare_config ⟨some "http://proxy.example", none⟩).isSome then
          (⟨some "http://proxy.example", none⟩ : ProxyEnv).webshare_proxy_username
        else none)) := by decide

/-- C7 as amended: for every proxy configuration state the health
operation never fails — it is a total function into a record with exactly
the fields status, timestamp, proxy_status, proxy_username and
parallel_processing — with status healthy; proxy_username is the value of
WEBSHARE_PROXY_USERNAME, defaulting to the literal string not_set when
that variable is unset, whenever the proxy is enabled, and null
otherwise. -/
theorem claim_C7_health (env : ProxyEnv) (now : String) :
    (health_check env now).status = "healthy" ∧
    (health_check env now).timestamp = now ∧
    (health_check env now).parallel_processing = "enabled" ∧
    ((get_webshare_config env).isSome = true →
      (health_check env now).proxy_status = "webshare_enabled" ∧
      (health_check env now).proxy_username =
        some (env.webshare_proxy_username.getD "not_set")) ∧
    ((get_webshare_config env).isSome = false →
      (health_check env now).proxy_status = "webshare_disabled" ∧
      (health_check env now).proxy_username = none) := by
  refine ⟨rfl, rfl, rfl, fun h => ⟨?_, ?_⟩, fun h => ⟨?_, ?_⟩⟩
  · unfold health_check
    rw [h]
    rfl
  · unfold health_check
    rw [h]
    rfl
  · unfold health_check
    rw [h]
    rfl
  · unfold health_check
    rw [h]
    rfl

/-- Witness for C7 as amended, at both a fully configured and a fully
unconfigured environment. -/
theorem claim_C7_health_witness :
    (get_webshare_config ⟨some "http://proxy.example", some "user"⟩).isSome = true ∧
    (health_check ⟨some "http://proxy.example", some "user"⟩ "t").proxy_username =
      some "user" ∧
    (get_webshare_config ⟨none, none⟩).isSome = false ∧
    (health_check ⟨none, none⟩ "t").proxy_username = none :=
  ⟨by decide,
   ((claim_C7_health ⟨some "http://proxy.example", some "user"⟩ "t").2.2.2.1 (by decide)).2,
   by decide,
   ((claim_C7_health ⟨none, none⟩ "t").2.2.2.2 (by decide)).2⟩

/-- C8: the fallback indexing of the first available language is in
bounds exactly when the listing is non-empty — under that precondition
the selection succeeds and the resolver reaches the fetch call, so the
index-0 access never fails — while for every request whose listing
yields an empty language list (so that no preferred language can match)
the resolver raises, and the captions handler surfaces that as a 500
server error carrying the IndexError message, not as a transcript and
not as the empty-transcript sentinel. -/
theorem claim_C8_empty_listing (u : Upstream) (url video_id : String)
    (languages : Option (List String)) :
    (∀ (infos : List TranscriptInfo), u.list video_id = .ok infos → infos ≠ [] →
      ∃ lang, chooseLanguage (infos.map fun t => t.language_code) languages = .ok lang ∧
        get_transcript_with_fallback u video_id languages =
          (u.fetch video_id lang).map
            (fun t => (t, infos.map fun t => t.language_code))) ∧
    (u.list video_id = .ok [] →
      get_transcript_with_fallback u video_id languages =
        .error "list index out of range" ∧
      (url ≠ "" → resolveVideoId (urlParse url) = .ok video_id →
        get_video_captions u url languages =
          .error ⟨500, "Error getting captions for video: list index out of range"⟩)) := by
  refine ⟨?_, ?_⟩
  · intro infos hlist hne
    have hav : infos.map (fun t => t.language_code) ≠ [] :=
      fun hm => hne (List.map_eq_nil_iff.mp hm)
    refine ⟨specSelectLanguage (infos.map fun t => t.language_code) languages,
      chooseLanguage_ok _ _ hav, ?_⟩
    rw [fallback_listing_ok u video_id infos languages hlist]
    simp only [chooseLanguage_ok _ _ hav]
    cases hfetch : u.fetch video_id
        (specSelectLanguage (infos.map fun t => t.language_code) languages) with
    | error e => rfl
    | ok t => rfl
  · intro hlist
    have hf := fallback_empty_listing u video_id languages hlist
    refine ⟨hf, ?_⟩
    intro hurl hres
    unfold get_video_captions
    rw [if_neg hurl]
    simp only [hres, hf]
    rfl

/-- Witness for C8: a non-empty listing selects a language and reaches
the fetch, and the empty-listing upstream turns into the 500 with the
IndexError text. -/
theorem claim_C8_empty_listing_witness :
    (∃ lang, chooseLanguage (exInfos.map fun t => t.language_code)
        (some ["de"]) = .ok lang ∧
      get_transcript_with_fallback exUpstream "vid" (some ["de"]) =
        (exUpstream.fetch "vid" lang).map
          (fun t => (t, exInfos.map fun t => t.language_code))) ∧
    get_video_captions exUpstreamEmpty "https://youtu.be/xyz" (some ["de"]) =
      .error ⟨500, "Error getting captions for video: list index out of range"⟩ :=
  ⟨(claim_C8_empty_listing exUpstream "https://youtu.be/xyz" "vid"
      (some ["de"])).1 exInfos rfl (by decide),
   ((claim_C8_empty_listing exUpstreamEmpty "https://youtu.be/xyz" "xyz"
      (some ["de"])).2 rfl).2 (by decide) rfl⟩

/-- C9: for every parsed URL with hostname youtu.be the parser returns
the entire path after the leading slash, with no length or character-set
validation; the URL https youtu.be/abc/def yields the multi-segment token
abc/def, and https youtu.be/ yields the empty string, which the parser
itself accepts (it returns some of the empty string, not none) and only
the calling handlers reject, with status 400. -/
theorem claim_C9_youtu_be_path (p : ParsedUrl) (hp : p.hostname = some "youtu.be") :
    get_youtube_video_id p = some (pyDrop1 p.path) ∧
    urlParse "https://youtu.be/abc/def" = ⟨some "youtu.be", "/abc/def", ""⟩ ∧
    get_youtube_video_id (urlParse "https://youtu.be/abc/def") = some "abc/def" ∧
    get_youtube_video_id (urlParse "https://youtu.be/") = some "" ∧
    resolveVideoId (urlParse "https://youtu.be/") =
      .error ⟨400, "Error getting video ID from URL"⟩ ∧
    (∀ (u : Upstream) (languages : Option (List String)),
      get_video_captions u "https://youtu.be/" languages =
        .error ⟨400, "Error getting video ID from URL"⟩) := by
  refine ⟨?_, by decide, by decide, by decide, rfl, ?_⟩
  · unfold get_youtube_video_id
    rw [if_pos hp]
  · intro u languages
    unfold get_video_captions
    rw [if_neg (by decide : ¬ ("https://youtu.be/" : String) = "")]
    rw [show resolveVideoId (urlParse "https://youtu.be/") =
        .error ⟨400, "Error getting video ID from URL"⟩ from rfl]

/-- Witness for C9 at a concrete parsed URL with hostname youtu.be. -/
theorem claim_C9_youtu_be_path_witness :
    get_youtube_video_id ⟨some "youtu.be", "/xyz", ""⟩ = some (pyDrop1 "/xyz") :=
  (claim_C9_youtu_be_path ⟨some "youtu.be", "/xyz", ""⟩ rfl).1

/-- C10: for every fetched transcript with zero snippets the timestamps
handler returns the empty list as a successful response, and the
sentinel string of the captions handler is never among timestamp lines
(every timestamp line contains a colon, the sentinel does not). -/
theorem claim_C10_empty_timestamps (u : Upstream) (url video_id : String)
    (languages : Option (List String)) (t : FetchedTranscript) (avail : List String)
    (hurl : url ≠ "") (hres : resolveVideoId (urlParse url) = .ok video_id)
    (hfb : get_transcript_with_fallback u video_id languages = .ok (t, avail))
    (hsn : t.snippets = []) :
    get_video_timestamps u url languages = .ok [] ∧
    ∀ (snips : List Snippet),
      "No captions found for video" ∉ snips.map formatTimestamp := by
  refine ⟨?_, ?_⟩
  · unfold get_video_timestamps
    rw [if_neg hurl]
    simp only [hres, hfb, hsn]
    rfl
  · intro snips hmem
    obtain ⟨s, _hs, heq⟩ := List.mem_map.mp hmem
    have hcolon : ':' ∈ (formatTimestamp s).data := by
      show ':' ∈ (toString (Int.fdiv (pyInt s.start) 60) ++ ":" ++
        pad2 (Int.fmod (pyInt s.start) 60) ++ " - " ++ s.text).data
      rw [data_append, data_append, data_append, data_append]
      refine List.mem_append.mpr (Or.inl ?_)
      refine List.mem_append.mpr (Or.inl ?_)
      refine List.mem_append.mpr (Or.inl ?_)
      refine List.mem_append.mpr (Or.inr ?_)
      decide
    rw [heq] at hcolon
    exact absurd hcolon (by decide)

/-- Witness for C10: a fetched transcript with zero snippets yields the
empty timestamp list with success. -/
theorem claim_C10_empty_timestamps_witness :
    get_video_timestamps exUpstreamNoSnippets "https://youtu.be/xyz" none = .ok [] :=
  (claim_C10_empty_timestamps exUpstreamNoSnippets "https://youtu.be/xyz" "xyz" none
    ⟨"es", "es", false, []⟩ ["es", "fr"] (by decide) rfl rfl rfl).1

end YTS
